import Mathlib

/-!
Verification of the monzo-analysis repository's budget, categorisation and
API-client logic against its natural-language specification.

The TypeScript frontend under `src/frontend` is embedded shallowly:
JavaScript number arithmetic on pence amounts and percentages is modelled
over `ℚ` (all amounts are small integers, far below any double-precision
limit), strings over `String`, and nullable fields over `Option`.
Backend services that are referenced but not present under `src/`
(the budget aggregator's period windows and the budget-group roll-up) are
modelled from the specification text and are marked as such in their doc
comments.
-/

namespace Monzo

/-- The three user-visible budget health levels used across the UI:
`under` renders mint, `warning` renders yellow, `over` renders coral. -/
inductive BudgetLevel
  | under
  | warning
  | over
deriving DecidableEq

/-- `Math.min` on two numbers: the smaller argument. -/
def jsMin (a b : ℚ) : ℚ :=
  if a ≤ b then a else b

/-- `jsMin` agrees with the order-theoretic minimum. -/
theorem jsMin_eq_min (a b : ℚ) : jsMin a b = min a b := by
  rw [jsMin, min_def]

/-- From `src/frontend/src/components/ui/budget-bar.tsx` line 13:
`const percentage = Math.min((spent / budget) * 100, 100);`. -/
def barPercentage (spent budget : ℚ) : ℚ :=
  jsMin (spent / budget * 100) 100

/-- From `budget-bar.tsx` line 14: `const isOver = spent > budget;`. -/
def barIsOver (spent budget : ℚ) : Bool :=
  decide (budget < spent)

/-- From `budget-bar.tsx` line 15:
`const isWarning = percentage >= 80 && !isOver;`. -/
def barIsWarning (spent budget : ℚ) : Bool :=
  decide (80 ≤ barPercentage spent budget) && !(barIsOver spent budget)

/-- The status rendered by `BudgetBar` (budget-bar.tsx lines 17-22): coral
fill when `isOver`, yellow fill when `isWarning`, mint fill otherwise. -/
def barStatus (spent budget : ℚ) : BudgetLevel :=
  if barIsOver spent budget then .over
  else if barIsWarning spent budget then .warning
  else .under

/-- From `src/frontend/src/components/ui/budget-group-card.tsx` line 14:
`const percentage = Math.min((group.total_spent / group.total_budget) * 100, 100);`. -/
def groupCardPercentage (totalSpent totalBudget : ℚ) : ℚ :=
  jsMin (totalSpent / totalBudget * 100) 100

/-- From `budget-group-card.tsx` line 15:
`const isOver = group.total_spent > group.total_budget;`. -/
def groupCardIsOver (totalSpent totalBudget : ℚ) : Bool :=
  decide (totalBudget < totalSpent)

/-- From `budget-group-card.tsx` line 16:
`const isWarning = percentage >= 80 && !isOver;`. -/
def groupCardIsWarning (totalSpent totalBudget : ℚ) : Bool :=
  decide (80 ≤ groupCardPercentage totalSpent totalBudget)
    && !(groupCardIsOver totalSpent totalBudget)

/-- The status displayed by `BudgetGroupCard` (budget-group-card.tsx lines
18-29): coral border/badge when `isOver`, yellow when `isWarning`, mint
otherwise.  It is computed from the group's summed totals only. -/
def groupCardStatus (totalSpent totalBudget : ℚ) : BudgetLevel :=
  if groupCardIsOver totalSpent totalBudget then .over
  else if groupCardIsWarning totalSpent totalBudget then .warning
  else .under

/-- A child budget of a group: its spent amount and its limit (`amount`),
both in minor units, as carried by the `BudgetStatus` API payload. -/
structure ChildBudget where
  spent : ℚ
  amount : ℚ
deriving DecidableEq

/-- Modelled from the spec: the backend `BudgetGroupService` roll-up
(`backend/app/services/budget_groups.py`, not under `src/`) — "group totals
are the arithmetic sum of child spent/limit — not an average". -/
def groupTotalSpent (children : List ChildBudget) : ℚ :=
  (children.map (fun c => c.spent)).sum

/-- Modelled from the spec: the summed limit of a group's children, as for
`groupTotalSpent`. -/
def groupTotalBudget (children : List ChildBudget) : ℚ :=
  (children.map (fun c => c.amount)).sum

/-- Severity ordering of levels, `under` least and `over` greatest. -/
def levelRank : BudgetLevel → Nat
  | .under => 0
  | .warning => 1
  | .over => 2

/-- The worse of two levels under `levelRank`. -/
def worseLevel (a b : BudgetLevel) : BudgetLevel :=
  if levelRank a ≤ levelRank b then b else a

/-- The worst level in a list, starting from `under`. -/
def worstLevel (ls : List BudgetLevel) : BudgetLevel :=
  ls.foldl worseLevel .under

/-- Modelled from the spec: the backend group status roll-up (not under
`src/`) — "Group status is the worst status among its non-empty children".
Child statuses use the threshold classification of `barStatus`. -/
def groupWorstStatus (children : List ChildBudget) : BudgetLevel :=
  worstLevel (children.map (fun c => barStatus c.spent c.amount))

/-- `BudgetGroupCard` computes its status by exactly the same rule as
`BudgetBar` does, only applied to the group's summed totals. -/
theorem groupCardStatus_eq_barStatus (s b : ℚ) :
    groupCardStatus s b = barStatus s b := rfl

/-- For a positive limit, the `80 ≤ percentage` test of the bar is
equivalent to `spent` reaching 80% of the limit. -/
theorem barPercentage_ge_iff (spent budget : ℚ) (h : 0 < budget) :
    80 ≤ barPercentage spent budget ↔ 80 / 100 * budget ≤ spent := by
  unfold barPercentage jsMin
  split_ifs with hle
  · rw [div_mul_eq_mul_div, le_div_iff₀ h]
    constructor <;> intro h2 <;> nlinarith
  · rw [div_mul_eq_mul_div, not_le, lt_div_iff₀ h] at hle
    constructor
    · intro _; nlinarith
    · intro _; norm_num

/-- Characterisation of the `BudgetBar` status for a positive limit. -/
theorem barStatus_iff (spent budget : ℚ) (h : 0 < budget) :
    (barStatus spent budget = .over ↔ budget < spent)
    ∧ (barStatus spent budget = .warning ↔
        80 / 100 * budget ≤ spent ∧ spent ≤ budget)
    ∧ (barStatus spent budget = .under ↔ spent < 80 / 100 * budget) := by
  have h80b : 80 / 100 * budget ≤ budget := by nlinarith
  by_cases hov : budget < spent
  · have hst : barStatus spent budget = .over := by
      simp [barStatus, barIsOver, hov]
    rw [hst]
    refine ⟨⟨fun _ => hov, fun _ => rfl⟩, ?_, ?_⟩
    · constructor
      · intro hc; cases hc
      · rintro ⟨-, hle⟩; exact absurd hov (not_lt.mpr hle)
    · constructor
      · intro hc; cases hc
      · intro hlt
        exact absurd hov (not_lt.mpr (le_of_lt (lt_of_lt_of_le hlt h80b)))
  · have hovf : barIsOver spent budget = false := by simp [barIsOver, hov]
    by_cases hw : 80 / 100 * budget ≤ spent
    · have hwt : barIsWarning spent budget = true := by
        simp [barIsWarning, hovf, (barPercentage_ge_iff spent budget h).mpr hw]
      have hst : barStatus spent budget = .warning := by
        simp [barStatus, hovf, hwt]
      rw [hst]
      refine ⟨?_, ⟨fun _ => ⟨hw, not_lt.mp hov⟩, fun _ => rfl⟩, ?_⟩
      · constructor
        · intro hc; cases hc
        · intro hlt; exact absurd hlt hov
      · constructor
        · intro hc; cases hc
        · intro hlt; exact absurd hw (not_le.mpr hlt)
    · have hwf : barIsWarning spent budget = false := by
        simp only [barIsWarning, hovf, Bool.not_false, Bool.and_true,
          decide_eq_false_iff_not]
        rw [barPercentage_ge_iff spent budget h]
        exact hw
      have hst : barStatus spent budget = .under := by
        simp [barStatus, hovf, hwf]
      rw [hst]
      refine ⟨?_, ?_, ⟨fun _ => not_le.mp hw, fun _ => rfl⟩⟩
      · constructor
        · intro hc; cases hc
        · intro hlt; exact absurd hlt hov
      · constructor
        · intro hc; cases hc
        · rintro ⟨hge, -⟩; exact absurd hge hw

/-- C1: for every budget with a positive limit and every spent amount, the
status shown for the budget is `under` exactly when spent is strictly below
80% of the limit, `warning` exactly when spent is between 80% and 100% of
the limit inclusive (so exactly 80% and exactly 100% both yield `warning`),
and `over` exactly when spent strictly exceeds the limit. -/
theorem budget_status_thresholds (spent limit : ℚ) (h : 0 < limit) :
    (barStatus spent limit = .under ↔ spent < 80 / 100 * limit)
    ∧ (barStatus spent limit = .warning ↔
        80 / 100 * limit ≤ spent ∧ spent ≤ limit)
    ∧ (barStatus spent limit = .over ↔ limit < spent) := by
  obtain ⟨h1, h2, h3⟩ := barStatus_iff spent limit h
  exact ⟨h3, h2, h1⟩

/-- Witness for C1 at limit 100: spends 79, 80, 100 and 101 pence classify
as under, warning, warning and over respectively. -/
theorem budget_status_thresholds_witness :
    barStatus 79 100 = .under ∧ barStatus 80 100 = .warning
    ∧ barStatus 100 100 = .warning ∧ barStatus 101 100 = .over :=
  ⟨(budget_status_thresholds 79 100 (by norm_num)).1.mpr (by norm_num),
   (budget_status_thresholds 80 100 (by norm_num)).2.1.mpr (by norm_num),
   (budget_status_thresholds 100 100 (by norm_num)).2.1.mpr (by norm_num),
   (budget_status_thresholds 101 100 (by norm_num)).2.2.mpr (by norm_num)⟩

/-- C9: for every spent amount and positive limit, the fill percentage of
`BudgetBar` and of `BudgetGroupCard` equals `min (spent/limit * 100) 100`,
hence never exceeds 100, and is exactly 100 whenever spending is over the
limit. -/
theorem progress_bar_width_capped (spent limit : ℚ) (h : 0 < limit) :
    barPercentage spent limit = min (spent / limit * 100) 100
    ∧ barPercentage spent limit ≤ 100
    ∧ groupCardPercentage spent limit = min (spent / limit * 100) 100
    ∧ groupCardPercentage spent limit ≤ 100
    ∧ (limit < spent →
        barPercentage spent limit = 100 ∧ groupCardPercentage spent limit = 100) := by
  have hbridge : groupCardPercentage spent limit = barPercentage spent limit := rfl
  have he : barPercentage spent limit = min (spent / limit * 100) 100 :=
    jsMin_eq_min _ _
  have hle : barPercentage spent limit ≤ 100 := by
    rw [he]; exact min_le_right _ _
  have hover : limit < spent → barPercentage spent limit = 100 := by
    intro hlt
    rw [he]
    apply min_eq_right
    rw [div_mul_eq_mul_div, le_div_iff₀ h]
    nlinarith
  exact ⟨he, hle, hbridge.trans he, hbridge ▸ hle,
    fun hlt => ⟨hover hlt, hbridge.trans (hover hlt)⟩⟩

/-- Witness for C9 at spent 150, limit 100: both bars clamp to 100%. -/
theorem progress_bar_width_capped_witness :
    barPercentage 150 100 = 100 ∧ groupCardPercentage 150 100 = 100 :=
  (progress_bar_width_capped 150 100 (by norm_num)).2.2.2.2 (by norm_num)

/-- C2 counterexample: a group whose children are (spent 150, limit 100) —
an `over` child — and (spent 0, limit 1000) has worst child status `over`,
yet the summed totals are 150 of 1100 (under 80%), so `BudgetGroupCard`
displays the `under` status for the group, refuting the worst-status claim
for the reported group status. -/
theorem group_worst_status_counterexample :
    groupWorstStatus [⟨150, 100⟩, ⟨0, 1000⟩] = .over
    ∧ groupTotalSpent [⟨150, 100⟩, ⟨0, 1000⟩] = 150
    ∧ groupTotalBudget [⟨150, 100⟩, ⟨0, 1000⟩] = 1100
    ∧ groupCardStatus 150 1100 = .under
    ∧ BudgetLevel.under ≠ BudgetLevel.over := by
  have hc1 : barStatus (150 : ℚ) 100 = .over :=
    (barStatus_iff 150 100 (by norm_num)).1.mpr (by norm_num)
  have hc2 : barStatus (0 : ℚ) 1000 = .under :=
    (barStatus_iff 0 1000 (by norm_num)).2.2.mpr (by norm_num)
  have hmap : ([⟨150, 100⟩, ⟨0, 1000⟩] : List ChildBudget).map
      (fun c => barStatus c.spent c.amount) = [.over, .under] := by
    simp [hc1, hc2]
  refine ⟨?_, by simp [groupTotalSpent], by norm_num [groupTotalBudget], ?_, by decide⟩
  · rw [groupWorstStatus, hmap]; decide
  · rw [groupCardStatus_eq_barStatus]
    exact (barStatus_iff 150 1100 (by norm_num)).2.2.mpr (by norm_num)

/-- C2 amended: group totals are the arithmetic sums of the children's
spent and limit amounts (not averages), and the status the group card
reports is derived from those summed totals by the same thresholds as a
single budget bar — it is not the worst status among the children. -/
theorem group_rollup_amended (children : List ChildBudget)
    (h : 0 < groupTotalBudget children) :
    groupTotalSpent children = (children.map (fun c => c.spent)).sum
    ∧ groupTotalBudget children = (children.map (fun c => c.amount)).sum
    ∧ (groupCardStatus (groupTotalSpent children) (groupTotalBudget children) = .over
        ↔ groupTotalBudget children < groupTotalSpent children)
    ∧ (groupCardStatus (groupTotalSpent children) (groupTotalBudget children) = .warning
        ↔ 80 / 100 * groupTotalBudget children ≤ groupTotalSpent children
          ∧ groupTotalSpent children ≤ groupTotalBudget children)
    ∧ (groupCardStatus (groupTotalSpent children) (groupTotalBudget children) = .under
        ↔ groupTotalSpent children < 80 / 100 * groupTotalBudget children) := by
  obtain ⟨h1, h2, h3⟩ :=
    barStatus_iff (groupTotalSpent children) (groupTotalBudget children) h
  refine ⟨rfl, rfl, ?_, ?_, ?_⟩ <;> rw [groupCardStatus_eq_barStatus]
  · exact h1
  · exact h2
  · exact h3

/-- Witness for C2's amended claim on the counterexample group: the card
reports `under` for summed totals 150 of 1100. -/
theorem group_rollup_amended_witness :
    groupCardStatus (groupTotalSpent [⟨150, 100⟩, ⟨0, 1000⟩])
      (groupTotalBudget [⟨150, 100⟩, ⟨0, 1000⟩]) = .under := by
  have h := group_rollup_amended [⟨150, 100⟩, ⟨0, 1000⟩]
    (by norm_num [groupTotalBudget])
  refine h.2.2.2.2.mpr ?_
  norm_num [groupTotalSpent, groupTotalBudget]

/-- JavaScript `a || b` for a nullable string `a`: yields `b` when `a` is
null or the empty string (falsy), else `a`. -/
def jsOrString (a : Option String) (b : String) : String :=
  match a with
  | some s => if s = "" then b else s
  | none => b

/-- From `src/frontend/src/pages/dashboard.tsx` line 204 and the
transactions page (`budgets.tsx` concatenation, line 823):
`category = tx.custom_category || tx.monzo_category || "general"`. -/
def displayCategory (custom monzo : Option String) : String :=
  jsOrString custom (jsOrString monzo "general")

/-- C3 counterexample: a transaction whose user-assigned category is
present but equal to the empty string is displayed under its Monzo
category, not under the user-assigned value, because `||` treats the empty
string as absent. -/
theorem display_category_counterexample :
    displayCategory (some "") (some "groceries") = "groceries"
    ∧ "groceries" ≠ "" := by
  exact ⟨rfl, by decide⟩

/-- C3 amended: the displayed category is the user-assigned category
whenever one is present and non-empty, otherwise the Monzo category when
present and non-empty, otherwise `general` (a present-but-empty value is
treated as absent). -/
theorem display_category_amended (custom monzo : Option String) :
    (∀ s, custom = some s → s ≠ "" → displayCategory custom monzo = s)
    ∧ (∀ s, (custom = none ∨ custom = some "") → monzo = some s → s ≠ "" →
        displayCategory custom monzo = s)
    ∧ ((custom = none ∨ custom = some "") → (monzo = none ∨ monzo = some "") →
        displayCategory custom monzo = "general") := by
  refine ⟨?_, ?_, ?_⟩
  · rintro s rfl hs
    simp [displayCategory, jsOrString, hs]
  · rintro s (rfl | rfl) rfl hs <;> simp [displayCategory, jsOrString, hs]
  · rintro (rfl | rfl) (rfl | rfl) <;> simp [displayCategory, jsOrString]

/-- Witness for C3's amended claim: a non-empty override wins, otherwise
the Monzo category, otherwise `general`. -/
theorem display_category_amended_witness :
    displayCategory (some "eating_out") (some "groceries") = "eating_out"
    ∧ displayCategory none (some "groceries") = "groceries"
    ∧ displayCategory none none = "general" :=
  ⟨(display_category_amended (some "eating_out") (some "groceries")).1
      "eating_out" rfl (by decide),
   (display_category_amended none (some "groceries")).2.1
      "groceries" (Or.inl rfl) rfl (by decide),
   (display_category_amended none none).2.2 (Or.inl rfl) (Or.inl rfl)⟩

/-- One page of the transactions API, as consumed by the transactions page:
`GET /api/v1/transactions?limit=&offset=` returns the slice
`[offset, offset + limit)` of the ledger, modelled as the indices of a
ledger of `total` transactions. -/
def fetchPage (total limit offset : Nat) : List Nat :=
  ((List.range total).drop offset).take limit

/-- The load-more loop of the transactions page (`budgets.tsx`
concatenation, lines 698-840): starting at `pageOffset`, a page is fetched;
while `hasMore = pageOffset + PAGE_SIZE < total` the button advances
`pageOffset` by `PAGE_SIZE` and the next page is fetched.  The page size is
the constant 50 in the source; it is a parameter here, and the `0 < limit`
conjunct makes the recursion well-founded. -/
def loadFrom (total limit offset : Nat) : List Nat :=
  fetchPage total limit offset ++
    (if _h : 0 < limit ∧ offset + limit < total then
      loadFrom total limit (offset + limit)
    else [])
termination_by total - offset
decreasing_by omega

/-- All transactions retrieved by repeatedly pressing load-more from the
initial offset 0 until `hasMore` is false. -/
def loadAllTransactions (total limit : Nat) : List Nat :=
  loadFrom total limit 0

/-- The loop starting at any offset retrieves exactly the ledger suffix
from that offset. -/
theorem loadFrom_eq (total limit : Nat) (hl : 0 < limit) :
    ∀ offset, loadFrom total limit offset = (List.range total).drop offset := by
  have key : ∀ n offset, total - offset ≤ n →
      loadFrom total limit offset = (List.range total).drop offset := by
    intro n
    induction n with
    | zero =>
      intro offset h0
      have hto : total ≤ offset := by omega
      have hnil : (List.range total).drop offset = [] :=
        List.drop_eq_nil_of_le (by rw [List.length_range]; exact hto)
      rw [loadFrom, dif_neg (by omega), List.append_nil, fetchPage, hnil,
        List.take_nil]
    | succ n ih =>
      intro offset hle
      rw [loadFrom]
      by_cases hc : 0 < limit ∧ offset + limit < total
      · rw [dif_pos hc, ih (offset + limit) (by omega), fetchPage]
        have hdd : (List.range total).drop (offset + limit) =
            ((List.range total).drop offset).drop limit := by
          rw [List.drop_drop]
        rw [hdd, List.take_append_drop]
      · rw [dif_neg hc, List.append_nil, fetchPage]
        apply List.take_of_length_le
        rw [List.length_drop, List.length_range]
        omega
  exact fun offset => key (total - offset) offset le_rfl

/-- C5: for every ledger size and positive page size, the load-more loop
retrieves every transaction exactly once — the result is exactly the list
of all ledger indices in order, with length `total` and no duplicates; a
page that comes back full never terminates the loop early. -/
theorem pagination_completeness (total limit : Nat) (h : 0 < limit) :
    loadAllTransactions total limit = List.range total
    ∧ (loadAllTransactions total limit).length = total
    ∧ (loadAllTransactions total limit).Nodup := by
  have he : loadAllTransactions total limit = List.range total := by
    rw [loadAllTransactions, loadFrom_eq total limit h 0, List.drop_zero]
  exact ⟨he, by rw [he, List.length_range],
    by rw [he]; exact List.nodup_range total⟩

/-- Witness for C5 at the spec's scenario: a ledger of 250 transactions
with page size 100 yields all 250 exactly once, not 200 or 300. -/
theorem pagination_completeness_witness :
    loadAllTransactions 250 100 = List.range 250
    ∧ (loadAllTransactions 250 100).length = 250
    ∧ (loadAllTransactions 250 100).Nodup :=
  pagination_completeness 250 100 (by norm_num)

/-- Gregorian leap-year rule, as implemented by JavaScript `Date`. -/
def isLeapYear (y : Nat) : Bool :=
  y % 4 == 0 && (y % 100 != 0 || y % 400 == 0)

/-- Number of days in a month (months are 1-based here; the dashboard
obtains this value as `new Date(year, month + 1, 0).getDate()` on a
0-based month, which is the same quantity). -/
def daysInMonth (y m : Nat) : Nat :=
  match m with
  | 1 => 31
  | 2 => if isLeapYear y then 29 else 28
  | 3 => 31
  | 4 => 30
  | 5 => 31
  | 6 => 30
  | 7 => 31
  | 8 => 31
  | 9 => 30
  | 10 => 31
  | 11 => 30
  | 12 => 31
  | _ => 0

/-- From `src/frontend/src/pages/dashboard.tsx` lines 48-52: the number in
the subtitle "Budget resets in N days" is
`daysInMonth - now.getDate()` — the days left in the calendar month,
independent of any budget's start day. -/
def dashboardDaysUntilReset (y m day : Nat) : Nat :=
  daysInMonth y m - day

/-- A calendar date (1-based month and day). -/
structure Date where
  year : Nat
  month : Nat
  day : Nat
deriving DecidableEq

/-- Days in the years strictly before `y` (proleptic Gregorian), for
day-difference arithmetic. -/
def daysBeforeYear (y : Nat) : Nat :=
  365 * (y - 1) + (y - 1) / 4 + (y - 1) / 400 - (y - 1) / 100

/-- Days in the months of year `y` strictly before month `m`. -/
def daysBeforeMonth (y m : Nat) : Nat :=
  (List.range (m - 1)).foldl (fun acc k => acc + daysInMonth y (k + 1)) 0

/-- Ordinal day number of a date, so that differences count days. -/
def Date.toDayNumber (t : Date) : Nat :=
  daysBeforeYear t.year + daysBeforeMonth t.year t.month + t.day

/-- Modelled from the spec: `nextOccurrenceOfDay(d)` of the backend
aggregator's period-window computation (the aggregation service is not
under `src/`) — the first date with day-of-month `d` strictly after
`asOf` (for `d` clamped to 1-28). -/
def nextOccurrenceOfDay (d : Nat) (asOf : Date) : Date :=
  if asOf.day < d then ⟨asOf.year, asOf.month, d⟩
  else if asOf.month = 12 then ⟨asOf.year + 1, 1, d⟩
  else ⟨asOf.year, asOf.month + 1, d⟩

/-- Modelled from the spec: `thisOrPriorOccurrenceOfDay(d)` of the backend
aggregator — the latest date with day-of-month `d` not after `asOf`. -/
def thisOrPriorOccurrenceOfDay (d : Nat) (asOf : Date) : Date :=
  if d ≤ asOf.day then ⟨asOf.year, asOf.month, d⟩
  else if asOf.month = 1 then ⟨asOf.year - 1, 12, d⟩
  else ⟨asOf.year, asOf.month - 1, d⟩

/-- Days from `asOf` until the next occurrence of day-of-month `d`, the
figure the spec's period window implies for "days until reset". -/
def daysUntilNextOccurrence (d : Nat) (asOf : Date) : Nat :=
  (nextOccurrenceOfDay d asOf).toDayNumber - asOf.toDayNumber

/-- C4: the dashboard's "Budget resets in N days" figure ignores the
budget start day.  Failing input: as-of 12 October 2026 with a monthly
budget anchored at start day 15.  The active period modelled from the spec
is [15 September 2026, 15 October 2026), so the reset is 3 days away, but
the dashboard shows 19 (the days to the end of the calendar month). -/
theorem dashboard_reset_ignores_start_day :
    dashboardDaysUntilReset 2026 10 12 = 19
    ∧ thisOrPriorOccurrenceOfDay 15 ⟨2026, 10, 12⟩ = ⟨2026, 9, 15⟩
    ∧ nextOccurrenceOfDay 15 ⟨2026, 10, 12⟩ = ⟨2026, 10, 15⟩
    ∧ daysUntilNextOccurrence 15 ⟨2026, 10, 12⟩ = 3
    ∧ (19 : Nat) ≠ 3 := by
  refine ⟨rfl, rfl, rfl, by decide, by decide⟩

/-- The `SyncStatus` payload of `GET /api/v1/sync/status`
(`src/frontend/src/lib/api.ts` lines 107-112).  `last_sync` is an ISO
timestamp in the source; it is modelled here as the epoch milliseconds
that `new Date(iso).getTime()` yields from it. -/
structure SyncState where
  last_sync : Option Int
  transactions_synced : Option Nat
  status : String
  error : Option String

/-- From `src/frontend/src/components/layout/sidebar.tsx` lines 22-31:
`formatRelativeTime`, on the millisecond difference `Date.now() - t`.
`Math.floor` on the division is `Int.fdiv`. -/
def formatRelativeTime (nowMs tMs : Int) : String :=
  let diff := nowMs - tMs
  let minutes := Int.fdiv diff 60000
  if minutes < 1 then "just now"
  else if minutes < 60 then s!"{minutes}m ago"
  else
    let hours := Int.fdiv minutes 60
    if hours < 24 then s!"{hours}h ago"
    else
      let days := Int.fdiv hours 24
      s!"{days}d ago"

/-- From `sidebar.tsx` lines 36-38: the last-sync label. -/
def sidebarLastSyncLabel (nowMs : Int) (s : SyncState) : String :=
  match s.last_sync with
  | some t => formatRelativeTime nowMs t
  | none => "never"

/-- From `sidebar.tsx` lines 40-45: the colour class applied to the
last-sync label, the only place the sync status is surfaced. -/
def sidebarStatusColor (s : SyncState) : String :=
  if s.status = "running" then "text-yellow"
  else if s.status = "failed" then "text-coral"
  else "text-stone"

/-- The text fragments the sidebar footer renders from the sync status
(`sidebar.tsx` lines 94-101): the "Last sync:" label, the relative time,
and "syncing..." while a run is in progress.  No other sidebar output
depends on the sync status. -/
def sidebarTexts (nowMs : Int) (s : SyncState) : List String :=
  ["Last sync:", sidebarLastSyncLabel nowMs s] ++
    (if s.status = "running" then ["syncing..."] else [])

/-- C6 counterexample: a completed failed sync whose error text is
"Monzo API error: token expired" renders only the coral-coloured relative
time in the sidebar; the error string itself appears nowhere in the
rendered output. -/
theorem sync_error_not_rendered_counterexample :
    sidebarTexts 0 ⟨some 0, some 42, "failed", some "Monzo API error: token expired"⟩
      = ["Last sync:", "just now"]
    ∧ "Monzo API error: token expired" ∉
        sidebarTexts 0 ⟨some 0, some 42, "failed", some "Monzo API error: token expired"⟩
    ∧ sidebarStatusColor ⟨some 0, some 42, "failed", some "Monzo API error: token expired"⟩
      = "text-coral" := by
  refine ⟨by decide, by decide, by decide⟩

/-- C6 amended: the sidebar surfaces the sync status (colour-coded — coral
when failed, yellow plus a "syncing..." indicator when running) and the
relative last-sync time, but its output is completely independent of the
error field, so a failed run's error text is never rendered. -/
theorem sidebar_sync_status_amended (nowMs : Int) (s : SyncState)
    (e : Option String) :
    sidebarTexts nowMs { s with error := e } = sidebarTexts nowMs s
    ∧ sidebarStatusColor { s with error := e } = sidebarStatusColor s
    ∧ (s.status = "failed" → sidebarStatusColor s = "text-coral")
    ∧ (s.status = "running" → sidebarStatusColor s = "text-yellow"
        ∧ "syncing..." ∈ sidebarTexts nowMs s) := by
  refine ⟨rfl, rfl, ?_, ?_⟩
  · intro hf
    rw [sidebarStatusColor, hf]
    decide
  · intro hr
    constructor
    · rw [sidebarStatusColor, hr]
      decide
    · rw [sidebarTexts, hr]
      simp

/-- Witness for C6's amended claim: for a concrete failed status carrying
an error, replacing the error changes nothing and the colour is coral. -/
theorem sidebar_sync_status_amended_witness :
    sidebarTexts 0 ⟨some 0, none, "failed", some "boom"⟩
      = sidebarTexts 0 ⟨some 0, none, "failed", none⟩
    ∧ sidebarStatusColor (⟨some 0, none, "failed", none⟩ : SyncState)
      = "text-coral" := by
  have h := sidebar_sync_status_amended 0
    ⟨some 0, none, "failed", none⟩ (some "boom")
  exact ⟨h.1, h.2.2.1 rfl⟩

/-- The keys of the rule `conditions` object that the rules page reads and
writes (`src/frontend/src/pages/rules.tsx`): a merchant-name substring, a
merchant-category match, and greater-than / less-than pence amounts. -/
structure RuleConditions where
  merchant_name : Option String := none
  merchant_category : Option String := none
  amount_gt : Option Int := none
  amount_lt : Option Int := none
deriving DecidableEq

/-- The condition field selectable in the rule dialog (rules.tsx 42-46). -/
inductive CondField
  | merchant_name
  | merchant_category
  | amount
deriving DecidableEq

/-- The condition operator selectable in the dialog (rules.tsx 48-53). -/
inductive CondOp
  | contains
  | equals
  | greater_than
  | less_than
deriving DecidableEq

/-- The single condition the rule form can hold (rules.tsx 55-63). -/
structure FormCondition where
  condition_field : CondField
  condition_operator : CondOp
  condition_value : String
deriving DecidableEq

/-- JavaScript truthiness of a nullable string: non-null and non-empty. -/
def truthyString : Option String → Bool
  | some s => decide (s ≠ "")
  | none => false

/-- JavaScript truthiness of a nullable number: non-null and non-zero. -/
def truthyInt : Option Int → Bool
  | some n => decide (n ≠ 0)
  | none => false

/-- The character for a decimal digit (48 is the code point of the zero
digit). -/
def digitChar (d : Nat) : Char :=
  Char.ofNat (48 + d % 10)

/-- Decimal digits of `n`, most significant first; `fuel` bounds the
recursion depth and `n + 1` is always enough. -/
def natToDecimalAux : Nat → Nat → List Char
  | 0, _ => []
  | fuel + 1, n =>
    if n < 10 then [digitChar n]
    else natToDecimalAux fuel (n / 10) ++ [digitChar (n % 10)]

/-- Decimal representation of a natural number, as JavaScript
`String(n)` produces for a non-negative integer. -/
def natToDecimal (n : Nat) : String :=
  String.mk (natToDecimalAux (n + 1) n)

/-- JavaScript `String(n)` for an integer: a minus sign followed by the
decimal digits when negative. -/
def intToDecimal (n : Int) : String :=
  if n < 0 then "-" ++ natToDecimal n.natAbs else natToDecimal n.natAbs

/-- The numeric value of a decimal digit character, if it is one (code
points 48 through 57). -/
def charDigit (c : Char) : Option Nat :=
  if 48 ≤ c.toNat ∧ c.toNat ≤ 57 then some (c.toNat - 48) else none

/-- Accumulating parse of a digit string. -/
def parseDecimalDigits : List Char → Nat → Option Nat
  | [], acc => some acc
  | c :: rest, acc =>
    match charDigit c with
    | some d => parseDecimalDigits rest (acc * 10 + d)
    | none => none

/-- JavaScript `parseInt` restricted to the decimal strings the rule
dialog produces (`String(n)` of an integer); `parseInt`'s prefix-parsing
and `NaN` behaviour on other inputs is not reached by these theorems and
is modelled as 0. -/
def jsParseInt (s : String) : Int :=
  match s.data with
  | '-' :: rest =>
    match parseDecimalDigits rest 0 with
    | some n => -(n : Int)
    | none => 0
  | l =>
    match parseDecimalDigits l 0 with
    | some n => (n : Int)
    | none => 0

/-- From `rules.tsx` lines 108-157 (`handleOpenDialog`): the edit dialog
extracts a single condition from the rule's conditions object, testing the
keys in the fixed order merchant_name, merchant_category, amount_gt,
amount_lt and keeping only the first truthy one; the defaults are
merchant_name / contains / "". -/
def handleOpenDialogCondition (c : RuleConditions) : FormCondition :=
  if truthyString c.merchant_name then
    ⟨.merchant_name, .contains, c.merchant_name.getD ""⟩
  else if truthyString c.merchant_category then
    ⟨.merchant_category, .equals, c.merchant_category.getD ""⟩
  else if truthyInt c.amount_gt then
    ⟨.amount, .greater_than, intToDecimal (c.amount_gt.getD 0)⟩
  else if truthyInt c.amount_lt then
    ⟨.amount, .less_than, intToDecimal (c.amount_lt.getD 0)⟩
  else ⟨.merchant_name, .contains, ""⟩

/-- From `rules.tsx` lines 159-198 (`handleSubmit`): the conditions object
sent on save is rebuilt from the form's single condition; any operator
other than greater_than on the amount field writes `amount_lt`. -/
def handleSubmitConditions (f : FormCondition) : RuleConditions :=
  match f.condition_field with
  | .merchant_name => { merchant_name := some f.condition_value }
  | .merchant_category => { merchant_category := some f.condition_value }
  | .amount =>
    if f.condition_operator = .greater_than then
      { amount_gt := some (jsParseInt f.condition_value) }
    else
      { amount_lt := some (jsParseInt f.condition_value) }

/-- Opening a rule in the edit dialog and submitting it unchanged. -/
def editRoundTrip (c : RuleConditions) : RuleConditions :=
  handleSubmitConditions (handleOpenDialogCondition c)

/-- How many of the four condition keys are set. -/
def conditionCount (c : RuleConditions) : Nat :=
  (if c.merchant_name.isSome then 1 else 0)
    + (if c.merchant_category.isSome then 1 else 0)
    + (if c.amount_gt.isSome then 1 else 0)
    + (if c.amount_lt.isSome then 1 else 0)

/-- C7 counterexample: a rule whose conditions are
`{merchant_name: "tesco", amount_gt: 5000}` loses its amount condition
when opened in the edit dialog and submitted without changes — the saved
conditions object is `{merchant_name: "tesco"}` only. -/
theorem rule_edit_drops_condition :
    editRoundTrip ⟨some "tesco", none, some 5000, none⟩
      = ⟨some "tesco", none, none, none⟩
    ∧ (⟨some "tesco", none, none, none⟩ : RuleConditions)
      ≠ ⟨some "tesco", none, some 5000, none⟩ := by
  exact ⟨by decide, by decide⟩

/-- C7 amended: the edit dialog keeps only the first truthy condition of a
rule (in the order merchant_name, merchant_category, amount_gt,
amount_lt), so submitting always writes a conditions object with at most
one condition; single-condition rules of the four supported kinds round
trip unchanged, but every further condition of a multi-condition rule is
dropped. -/
theorem rule_edit_roundtrip_amended (c : RuleConditions) :
    conditionCount (editRoundTrip c) ≤ 1
    ∧ (∀ s : String, s ≠ "" →
        editRoundTrip ⟨some s, none, none, none⟩ = ⟨some s, none, none, none⟩)
    ∧ (∀ s : String, s ≠ "" →
        editRoundTrip ⟨none, some s, none, none⟩ = ⟨none, some s, none, none⟩)
    ∧ editRoundTrip ⟨none, none, some 5000, none⟩ = ⟨none, none, some 5000, none⟩
    ∧ editRoundTrip ⟨none, none, none, some 250⟩ = ⟨none, none, none, some 250⟩ := by
  refine ⟨?_, ?_, ?_, by decide, by decide⟩
  · rw [editRoundTrip, handleSubmitConditions]
    rcases handleOpenDialogCondition c with ⟨f, op, v⟩
    rcases f with _ | _ | _
    · simp [conditionCount]
    · simp [conditionCount]
    · dsimp only
      split_ifs <;> simp [conditionCount]
  · intro s hs
    rw [editRoundTrip, handleOpenDialogCondition]
    rw [if_pos (by simp [truthyString, hs])]
    simp [handleSubmitConditions]
  · intro s hs
    rw [editRoundTrip, handleOpenDialogCondition]
    rw [if_neg (by simp [truthyString]), if_pos (by simp [truthyString, hs])]
    simp [handleSubmitConditions]

/-- Witness for C7's amended claim at concrete rules: single-condition
merchant and amount rules survive the edit round trip, and the
round-tripped multi-condition rule has at most one condition. -/
theorem rule_edit_roundtrip_amended_witness :
    editRoundTrip ⟨some "tesco", none, none, none⟩
      = ⟨some "tesco", none, none, none⟩
    ∧ editRoundTrip ⟨none, some "groceries", none, none⟩
      = ⟨none, some "groceries", none, none⟩
    ∧ editRoundTrip ⟨none, none, some 5000, none⟩
      = ⟨none, none, some 5000, none⟩
    ∧ conditionCount (editRoundTrip ⟨some "tesco", none, some 5000, none⟩) ≤ 1 :=
  ⟨(rule_edit_roundtrip_amended ⟨some "tesco", none, none, none⟩).2.1
      "tesco" (by decide),
   (rule_edit_roundtrip_amended ⟨none, some "groceries", none, none⟩).2.2.1
      "groceries" (by decide),
   (rule_edit_roundtrip_amended ⟨none, none, some 5000, none⟩).2.2.2.1,
   (rule_edit_roundtrip_amended ⟨some "tesco", none, some 5000, none⟩).1⟩

/-- A JSON value, as produced by `response.json()`. -/
inductive Json
  | null
  | bool (b : Bool)
  | num (q : ℚ)
  | str (s : String)
  | arr (elements : List Json)
  | obj (fields : List (String × Json))

/-- JavaScript truthiness of a JSON value: `null`, `false`, `0` and the
empty string are falsy; every array and object is truthy. -/
def Json.truthy : Json → Bool
  | .null => false
  | .bool b => b
  | .num q => decide (q ≠ 0)
  | .str s => decide (s ≠ "")
  | .arr _ => true
  | .obj _ => true

/-- The `detail` property access `data?.detail`: only an object can yield
one; on any other value the access gives `undefined`. -/
def Json.detailField : Json → Option Json
  | .obj fields => fields.lookup "detail"
  | _ => none

mutual

/-- JavaScript `String(v)` coercion, as applied by the `Error`
constructor to its message argument.  Non-integral numbers never occur in
pence-denominated API payloads; their JavaScript decimal notation is not
modelled further. -/
def jsCoerceString : Json → String
  | .null => "null"
  | .bool b => if b then "true" else "false"
  | .num q =>
    if q.den = 1 then intToDecimal q.num
    else intToDecimal q.num ++ "/" ++ natToDecimal q.den
  | .str s => s
  | .arr l => jsCoerceElements l
  | .obj _ => "[object Object]"

/-- `Array.prototype.toString`: elements coerced and joined with commas,
with `null` elements rendered empty. -/
def jsCoerceElements : List Json → String
  | [] => ""
  | [.null] => ""
  | [j] => jsCoerceString j
  | .null :: rest => "," ++ jsCoerceElements rest
  | j :: rest => jsCoerceString j ++ "," ++ jsCoerceElements rest

end

/-- An HTTP response as `fetch` resolves it: the `ok` flag, the status
code and text, and the result of `response.json()` (`none` when the body
is not valid JSON and the promise would reject). -/
structure HttpResponse where
  ok : Bool
  status : Nat
  statusText : String
  jsonBody : Option Json

/-- From `src/frontend/src/lib/api.ts` lines 40-46: the message given to
`ApiError` is `data?.detail || response.statusText`, where `data` is the
parsed error body or `null` when parsing failed. -/
def apiErrorMessage (data : Option Json) (statusText : String) : String :=
  match data with
  | some j =>
    match j.detailField with
    | some d => if d.truthy then jsCoerceString d else statusText
    | none => statusText
  | none => statusText

/-- How a call of `apiRequest` settles: resolution with the parsed body,
rejection with an `ApiError` (status, message, data), or rejection with
the JSON syntax error of `response.json()` on an ok response. -/
inductive ApiOutcome
  | resolved (body : Json)
  | apiError (status : Nat) (message : String) (data : Option Json)
  | parseFailure

/-- From `api.ts` lines 25-50 (`apiRequest`): an ok response resolves with
`response.json()`; a non-ok response throws
`ApiError(status, data?.detail || statusText, data)`, where the error body
parse failure is swallowed (`.catch(() => null)`). -/
def apiRequest (r : HttpResponse) : ApiOutcome :=
  if r.ok then
    match r.jsonBody with
    | some j => .resolved j
    | none => .parseFailure
  else
    .apiError r.status (apiErrorMessage r.jsonBody r.statusText) r.jsonBody

/-- C8 counterexample: a 404 response whose body is the JSON object
`{"detail": ""}` — the body parses and contains a `detail` field, yet the
thrown `ApiError`'s message is the status text "Not Found", not the detail
field, because `||` discards the falsy empty string. -/
theorem api_error_empty_detail_counterexample :
    apiRequest ⟨false, 404, "Not Found", some (.obj [("detail", .str "")])⟩
      = .apiError 404 "Not Found" (some (.obj [("detail", .str "")]))
    ∧ Json.detailField (.obj [("detail", .str "")]) = some (.str "")
    ∧ "Not Found" ≠ "" := by
  refine ⟨rfl, rfl, by decide⟩

/-- C8 amended: `apiRequest` resolves with the parsed JSON body exactly
when the response is ok and its body parses (an ok response with an
unparseable body rejects with the JSON parse error instead); every non-ok
response throws an `ApiError` whose status is the HTTP status and whose
message is the body's `detail` field when the body parses as a JSON object
with a truthy (in particular non-empty-string) `detail`, and the HTTP
status text otherwise — so an unparseable or detail-less error body still
yields an `ApiError`, never any other exception. -/
theorem api_request_amended (r : HttpResponse) :
    (∀ j, apiRequest r = .resolved j ↔ (r.ok = true ∧ r.jsonBody = some j))
    ∧ (r.ok = true → r.jsonBody = none → apiRequest r = .parseFailure)
    ∧ (r.ok = false →
        apiRequest r
          = .apiError r.status (apiErrorMessage r.jsonBody r.statusText) r.jsonBody)
    ∧ (∀ d, r.jsonBody.bind Json.detailField = some d → d.truthy = true →
        apiErrorMessage r.jsonBody r.statusText = jsCoerceString d)
    ∧ (∀ d, r.jsonBody.bind Json.detailField = some d → d.truthy = false →
        apiErrorMessage r.jsonBody r.statusText = r.statusText)
    ∧ (r.jsonBody.bind Json.detailField = none →
        apiErrorMessage r.jsonBody r.statusText = r.statusText) := by
  obtain ⟨ok, status, statusText, jsonBody⟩ := r
  refine ⟨?_, ?_, ?_, ?_, ?_, ?_⟩
  · intro j
    cases ok <;> cases jsonBody <;> simp [apiRequest]
  · intro hok hbody
    subst hok
    subst hbody
    rfl
  · intro hok
    subst hok
    rfl
  · intro d hd htruthy
    cases jsonBody with
    | none => cases hd
    | some j =>
      have hd2 : j.detailField = some d := hd
      simp [apiErrorMessage, hd2, htruthy]
  · intro d hd htruthy
    cases jsonBody with
    | none => cases hd
    | some j =>
      have hd2 : j.detailField = some d := hd
      simp [apiErrorMessage, hd2, htruthy]
  · intro hd
    cases jsonBody with
    | none => rfl
    | some j =>
      have hd2 : j.detailField = none := hd
      simp [apiErrorMessage, hd2]

/-- Witness for C8's amended claim: a failed 500 response whose body is
`{"detail": "sync already running"}` throws an `ApiError` carrying that
detail string verbatim as its message. -/
theorem api_request_amended_witness :
    apiRequest ⟨false, 500, "Internal Server Error",
        some (.obj [("detail", .str "sync already running")])⟩
      = .apiError 500 "sync already running"
          (some (.obj [("detail", .str "sync already running")])) := by
  have h := api_request_amended ⟨false, 500, "Internal Server Error",
    some (.obj [("detail", .str "sync already running")])⟩
  have hmsg := h.2.2.2.1 (.str "sync already running") rfl rfl
  have h3 := h.2.2.1 rfl
  rw [hmsg] at h3
  exact h3

/-- Insert the en-GB thousands separators into a reversed digit list:
after every three digits of a group a comma follows, as long as digits
remain. -/
def groupThousandsAux : List Char → Nat → List Char
  | [], _ => []
  | c :: rest, k =>
    if k = 2 ∧ rest ≠ [] then c :: ',' :: groupThousandsAux rest 0
    else c :: groupThousandsAux rest (k + 1)

/-- Decimal rendering of a natural number with en-GB digit grouping, as
`toLocaleString("en-GB")` and `Intl.NumberFormat("en-GB")` produce. -/
def groupThousands (n : Nat) : String :=
  String.mk ((groupThousandsAux (natToDecimalAux (n + 1) n).reverse 0).reverse)

/-- From `src/frontend/src/pages/dashboard.tsx` lines 253-259: the
dashboard-local `formatCurrency` formats `Math.abs(pence) / 100` with zero
fraction digits — rounding to the nearest whole pound, halves away from
zero, which on the non-negative absolute value is `(|pence| + 50) / 100`
in integer arithmetic. -/
def dashboardFormatCurrency (pence : Int) : String :=
  "£" ++ groupThousands ((pence.natAbs + 50) / 100)

/-- Two-digit zero-padded rendering of a pence remainder below 100. -/
def twoDigitPad (n : Nat) : String :=
  if n < 10 then "0" ++ natToDecimal n else natToDecimal n

/-- From `src/frontend/src/lib/utils.ts` (the shared library, in the
`part_013` concatenation lines 113-119): `formatCurrency` formats
`pence / 100` with `Intl.NumberFormat("en-GB", {style: "currency"})`,
which keeps the sign and always shows two decimal places. -/
def sharedFormatCurrency (pence : Int) : String :=
  (if pence < 0 then "-" else "") ++ "£"
    ++ groupThousands (pence.natAbs / 100) ++ "."
    ++ twoDigitPad (pence.natAbs % 100)

/-- C10: the dashboard's local `formatCurrency` renders `p` and `-p`
identically for every pence amount (it formats the absolute value rounded
to whole pounds), unlike the shared library `formatCurrency`, which keeps
the sign and two decimal places. -/
theorem dashboard_currency_sign_insensitive :
    (∀ p : Int, dashboardFormatCurrency p = dashboardFormatCurrency (-p))
    ∧ dashboardFormatCurrency 12345 = "£123"
    ∧ dashboardFormatCurrency (-12345) = "£123"
    ∧ dashboardFormatCurrency 150 = "£2"
    ∧ dashboardFormatCurrency 1234567 = "£12,346"
    ∧ sharedFormatCurrency 12345 = "£123.45"
    ∧ sharedFormatCurrency (-12345) = "-£123.45"
    ∧ sharedFormatCurrency (-12345) ≠ sharedFormatCurrency 12345 := by
  refine ⟨?_, by decide, by decide, by decide, by decide, by decide, by decide,
    by decide⟩
  intro p
  unfold dashboardFormatCurrency
  rw [Int.natAbs_neg]

end Monzo
